import Mathlib

/-!
Verification of the ASCOT5 Monte-Carlo Coulomb-collision (mccc) module
against its natural-language specification.

The development shallowly embeds, over the real numbers, the per-lane
control flow of `src/simulate/mccc/mccc.c` (the current implementation)
and `src/mccc/mccc.c` (the legacy implementation), together with the
species-list construction of `src/hdf5io/hdf5_plasma.c`.  Floating-point
doubles are modelled as real numbers; the external field and plasma
evaluators, the stochastic push and the Wiener record — whose sources are
not part of this tree — enter as explicit function parameters, so every
theorem quantifies over their possible behaviours.
-/

open Real

/-! ## Adaptive step controller: accept/reject decision and step proposal

Embeds `mccc_step_gc_adaptive`, src/simulate/mccc/mccc.c lines 632-652.
The inputs are the three error ratios returned by the Milstein push
(`kappa_k`, `kappa_d0`, `kappa_d1`), the current step `hin`, and the two
error-control Wiener increments `dW[3]`, `dW[4]`. -/

/-- Rejection test of `mccc_step_gc_adaptive` (line 633):
a step is rejected when any error ratio exceeds one. -/
def mccc_rejected (kk kd0 kd1 : ℝ) : Prop :=
  1 < kk ∨ 1 < kd0 ∨ 1 < kd1

/-- Magnitude of the next-step proposal (lines 638-647):
`0.8*hin/sqrt(kappa_k)` when the drift channel dominates, otherwise
`pow(0.9*fabs(dW)*pow(kappa,-1.0/3), 2.0)` for the dominant diffusion
channel. -/
noncomputable def mccc_hmag (kk kd0 kd1 hin dW3 dW4 : ℝ) : ℝ :=
  if kd0 ≤ kk ∧ kd1 ≤ kk then
    0.8 * hin / Real.sqrt kk
  else if kk ≤ kd0 ∧ kd1 ≤ kd0 then
    (0.9 * |dW3| * kd0 ^ (-(1 : ℝ)/3)) ^ (2 : ℕ)
  else
    (0.9 * |dW4| * kd1 ^ (-(1 : ℝ)/3)) ^ (2 : ℕ)

/-- Signed step-size output (lines 649-652): the proposal magnitude,
negated when the step was rejected. -/
noncomputable def mccc_hout (kk kd0 kd1 hin dW3 dW4 : ℝ) : ℝ :=
  if 1 < kk ∨ 1 < kd0 ∨ 1 < kd1 then
    -(mccc_hmag kk kd0 kd1 hin dW3 dW4)
  else
    mccc_hmag kk kd0 kd1 hin dW3 dW4

lemma mccc_hmag_pos {kk kd0 kd1 hin dW3 dW4 : ℝ}
    (hhin : 0 < hin) (hkk : 0 < kk) (hkd0 : 0 < kd0) (hkd1 : 0 < kd1)
    (h3 : dW3 ≠ 0) (h4 : dW4 ≠ 0) :
    0 < mccc_hmag kk kd0 kd1 hin dW3 dW4 := by
  unfold mccc_hmag
  split_ifs with h1 h2
  · exact div_pos (by linarith) (Real.sqrt_pos.mpr hkk)
  · have hb : 0 < 0.9 * |dW3| * kd0 ^ (-(1 : ℝ)/3) := by
      have := abs_pos.mpr h3
      have := Real.rpow_pos_of_pos hkd0 (-(1 : ℝ)/3)
      positivity
    exact pow_pos hb 2
  · have hb : 0 < 0.9 * |dW4| * kd1 ^ (-(1 : ℝ)/3) := by
      have := abs_pos.mpr h4
      have := Real.rpow_pos_of_pos hkd1 (-(1 : ℝ)/3)
      positivity
    exact pow_pos hb 2

/-- Claim C1: for a running lane of `mccc_step_gc_adaptive` (with positive
step and error ratios and nonzero error-control increments), the step is
rejected iff some error ratio exceeds 1, and the returned step size is
negative exactly on rejection and positive exactly on acceptance. -/
theorem mccc_adaptive_reject_iff_sign (kk kd0 kd1 hin dW3 dW4 : ℝ)
    (hhin : 0 < hin) (hkk : 0 < kk) (hkd0 : 0 < kd0) (hkd1 : 0 < kd1)
    (h3 : dW3 ≠ 0) (h4 : dW4 ≠ 0) :
    (mccc_hout kk kd0 kd1 hin dW3 dW4 < 0 ↔ mccc_rejected kk kd0 kd1) ∧
    (0 < mccc_hout kk kd0 kd1 hin dW3 dW4 ↔ ¬ mccc_rejected kk kd0 kd1) := by
  have hm := mccc_hmag_pos hhin hkk hkd0 hkd1 h3 h4
  unfold mccc_hout mccc_rejected
  by_cases hr : 1 < kk ∨ 1 < kd0 ∨ 1 < kd1
  · rw [if_pos hr]
    constructor
    · exact ⟨fun _ => hr, fun _ => by linarith⟩
    · constructor
      · intro h
        exact absurd h (by linarith)
      · intro h
        exact absurd hr h
  · rw [if_neg hr]
    constructor
    · exact ⟨fun h => absurd h (by linarith), fun h => absurd h hr⟩
    · exact ⟨fun _ => hr, fun _ => hm⟩

/-- Witness for claim C1, at `kappa_k = 4`, `kappa_d0 = kappa_d1 = 1/2`,
`hin = 1`, `dW3 = dW4 = 1`. -/
theorem mccc_adaptive_reject_iff_sign_witness :
    0 < (1 : ℝ) ∧ 0 < (4 : ℝ) ∧ 0 < (1/2 : ℝ) ∧ (1 : ℝ) ≠ 0 ∧
    ((mccc_hout 4 (1/2) (1/2) 1 1 1 < 0 ↔ mccc_rejected 4 (1/2) (1/2)) ∧
     (0 < mccc_hout 4 (1/2) (1/2) 1 1 1 ↔ ¬ mccc_rejected 4 (1/2) (1/2))) :=
  ⟨by norm_num, by norm_num, by norm_num, by norm_num,
   mccc_adaptive_reject_iff_sign 4 (1/2) (1/2) 1 1 1
     (by norm_num) (by norm_num) (by norm_num) (by norm_num)
     (by norm_num) (by norm_num)⟩

lemma rpow_eight_neg_third : (8 : ℝ) ^ (-(1 : ℝ)/3) = 1/2 := by
  have h8 : (8 : ℝ) = (2 : ℝ) ^ (3 : ℝ) := by
    rw [show (3 : ℝ) = ((3 : ℕ) : ℝ) by norm_num, Real.rpow_natCast]
    norm_num
  rw [h8, ← Real.rpow_mul (by norm_num : (0 : ℝ) ≤ 2)]
  rw [show (3 : ℝ) * (-(1 : ℝ)/3) = -1 by ring]
  rw [show (-1 : ℝ) = ((-1 : ℤ) : ℝ) by norm_num, Real.rpow_intCast]
  norm_num

/-- Claim C3, counterexample: with error ratios `(1/2, 8, 1/2)`, input step
`hin = 1` and error-control increments `dW3 = 10`, `dW4 = 1`, the step is
rejected and the returned step size is negative, yet its absolute value
`81/4` is larger than the input step size, refuting
`|stepSizeOut| < stepSizeIn`. -/
theorem mccc_adaptive_reject_shrink_cex :
    mccc_rejected (1/2) 8 (1/2) ∧
    mccc_hout (1/2) 8 (1/2) 1 10 1 < 0 ∧
    ¬ (|mccc_hout (1/2) 8 (1/2) 1 10 1| < 1) := by
  have hm : mccc_hmag (1/2) 8 (1/2) 1 10 1 = 81/4 := by
    unfold mccc_hmag
    rw [if_neg (fun h => absurd h.1 (by norm_num)),
        if_pos ⟨by norm_num, by norm_num⟩, rpow_eight_neg_third]
    rw [show |(10 : ℝ)| = 10 by norm_num]
    norm_num
  have hh : mccc_hout (1/2) 8 (1/2) 1 10 1 = -(81/4) := by
    unfold mccc_hout
    rw [if_pos (Or.inr (Or.inl (by norm_num))), hm]
  refine ⟨Or.inr (Or.inl (by norm_num)), by rw [hh]; norm_num,
    by rw [hh, abs_neg, abs_of_pos (by norm_num : (0 : ℝ) < 81/4)]; norm_num⟩

/-- Claim C3, amended: if an error ratio exceeds 1 the returned step size is
negative, and when additionally the drift/speed channel dominates
(`kappa_d0 ≤ kappa_k` and `kappa_d1 ≤ kappa_k`) its absolute value is
strictly smaller than the input step size.  (In the diffusion-dominant
branches the magnitude `(0.9 |dW| kappa^(-1/3))^2` may exceed `hin`, see the
counterexample.) -/
theorem mccc_adaptive_reject_shrink (kk kd0 kd1 hin dW3 dW4 : ℝ)
    (hhin : 0 < hin) (hkk : 0 < kk) (hkd0 : 0 < kd0) (hkd1 : 0 < kd1)
    (h3 : dW3 ≠ 0) (h4 : dW4 ≠ 0) :
    (mccc_rejected kk kd0 kd1 → mccc_hout kk kd0 kd1 hin dW3 dW4 < 0) ∧
    (mccc_rejected kk kd0 kd1 → kd0 ≤ kk → kd1 ≤ kk →
      |mccc_hout kk kd0 kd1 hin dW3 dW4| < hin) := by
  have hm := mccc_hmag_pos hhin hkk hkd0 hkd1 h3 h4
  constructor
  · intro hr
    have hr' : 1 < kk ∨ 1 < kd0 ∨ 1 < kd1 := hr
    unfold mccc_hout
    rw [if_pos hr']
    linarith
  · intro hr h1 h2
    have hr' : 1 < kk ∨ 1 < kd0 ∨ 1 < kd1 := hr
    have hkk1 : 1 < kk := by
      rcases hr with h | h | h
      · exact h
      · linarith
      · linarith
    have hmagval : mccc_hmag kk kd0 kd1 hin dW3 dW4 = 0.8 * hin / Real.sqrt kk := by
      unfold mccc_hmag
      rw [if_pos ⟨h1, h2⟩]
    have hs : 1 < Real.sqrt kk := by
      have h := Real.sqrt_lt_sqrt (by norm_num : (0 : ℝ) ≤ 1) hkk1
      rwa [Real.sqrt_one] at h
    have habs : |mccc_hout kk kd0 kd1 hin dW3 dW4| = 0.8 * hin / Real.sqrt kk := by
      unfold mccc_hout
      rw [if_pos hr', abs_neg, abs_of_pos hm, hmagval]
    rw [habs, div_lt_iff₀ (by linarith)]
    nlinarith

/-- Witness for claim C3 (amended), at ratios `(4, 1/3, 1/3)`. -/
theorem mccc_adaptive_reject_shrink_witness :
    mccc_rejected 4 (1/3) (1/3) ∧
    mccc_hout 4 (1/3) (1/3) 1 1 1 < 0 ∧
    |mccc_hout 4 (1/3) (1/3) 1 1 1| < 1 :=
  have h := mccc_adaptive_reject_shrink 4 (1/3) (1/3) 1 1 1
    (by norm_num) (by norm_num) (by norm_num) (by norm_num)
    (by norm_num) (by norm_num)
  ⟨Or.inl (by norm_num), h.1 (Or.inl (by norm_num)),
   h.2 (Or.inl (by norm_num)) (by norm_num) (by norm_num)⟩

/-- Claim C4, counterexample: in the diffusion-dominant branch the ratio
does not enter with a `(ratio)^(-2)` scaling — multiplying the proposal by
`ratio^2` is not invariant: at ratios 8 and 1 (all other inputs equal) the
products differ (`324/25` versus `81/100`). -/
theorem mccc_adaptive_proposal_scaling_cex :
    mccc_hmag 0 8 0 1 1 1 * 8 ^ (2 : ℕ) ≠ mccc_hmag 0 1 0 1 1 1 * 1 ^ (2 : ℕ) := by
  have e1 : mccc_hmag 0 8 0 1 1 1 = 81/400 := by
    unfold mccc_hmag
    rw [if_neg (fun h => absurd h.1 (by norm_num)),
        if_pos ⟨by norm_num, by norm_num⟩, rpow_eight_neg_third]
    rw [show |(1 : ℝ)| = 1 by norm_num]
    norm_num
  have e2 : mccc_hmag 0 1 0 1 1 1 = 81/100 := by
    unfold mccc_hmag
    rw [if_neg (fun h => absurd h.1 (by norm_num)),
        if_pos ⟨by norm_num, by norm_num⟩, Real.one_rpow]
    rw [show |(1 : ℝ)| = 1 by norm_num]
    norm_num
  rw [e1, e2]
  norm_num

/-- Claim C4, amended: the proposal magnitude is `0.8*hin/sqrt(kappa_k)`
when the drift/speed channel dominates, and otherwise the dominant
diffusion channel's ratio enters with a `(ratio)^(-2/3)` scaling:
the proposal equals `0.81 * dW^2 * ratio^(-2/3)`. -/
theorem mccc_adaptive_proposal_scaling (kk kd0 kd1 hin dW3 dW4 : ℝ) :
    (kd0 ≤ kk → kd1 ≤ kk →
      mccc_hmag kk kd0 kd1 hin dW3 dW4 = 0.8 * hin / Real.sqrt kk) ∧
    (0 ≤ kd0 → ¬ (kd0 ≤ kk ∧ kd1 ≤ kk) → kk ≤ kd0 → kd1 ≤ kd0 →
      mccc_hmag kk kd0 kd1 hin dW3 dW4
        = 0.81 * dW3 ^ (2 : ℕ) * kd0 ^ (-(2 : ℝ)/3)) ∧
    (0 ≤ kd1 → ¬ (kd0 ≤ kk ∧ kd1 ≤ kk) → ¬ (kk ≤ kd0 ∧ kd1 ≤ kd0) →
      mccc_hmag kk kd0 kd1 hin dW3 dW4
        = 0.81 * dW4 ^ (2 : ℕ) * kd1 ^ (-(2 : ℝ)/3)) := by
  refine ⟨fun h1 h2 => ?_, fun h0 hn1 h1 h2 => ?_, fun h0 hn1 hn2 => ?_⟩
  · unfold mccc_hmag
    rw [if_pos ⟨h1, h2⟩]
  · unfold mccc_hmag
    rw [if_neg hn1, if_pos ⟨h1, h2⟩, mul_pow, mul_pow, sq_abs,
        ← Real.rpow_natCast (kd0 ^ (-(1 : ℝ)/3)) 2, ← Real.rpow_mul h0,
        show (-(1 : ℝ)/3) * ((2 : ℕ) : ℝ) = -(2 : ℝ)/3 by push_cast; ring,
        show ((0.9 : ℝ)) ^ (2 : ℕ) = 0.81 by norm_num]
  · unfold mccc_hmag
    rw [if_neg hn1, if_neg hn2, mul_pow, mul_pow, sq_abs,
        ← Real.rpow_natCast (kd1 ^ (-(1 : ℝ)/3)) 2, ← Real.rpow_mul h0,
        show (-(1 : ℝ)/3) * ((2 : ℕ) : ℝ) = -(2 : ℝ)/3 by push_cast; ring,
        show ((0.9 : ℝ)) ^ (2 : ℕ) = 0.81 by norm_num]

/-- Witness for claim C4 (amended): both branch formulas at concrete inputs. -/
theorem mccc_adaptive_proposal_scaling_witness :
    (1 : ℝ) ≤ 4 ∧
    mccc_hmag 4 1 1 1 1 1 = 0.8 * 1 / Real.sqrt 4 ∧
    mccc_hmag 0 1 0 1 1 1 = 0.81 * 1 ^ (2 : ℕ) * (1 : ℝ) ^ (-(2 : ℝ)/3) :=
  ⟨by norm_num,
   (mccc_adaptive_proposal_scaling 4 1 1 1 1 1).1 (by norm_num) (by norm_num),
   (mccc_adaptive_proposal_scaling 0 1 0 1 1 1).2.1 (by norm_num)
     (fun h => absurd h.1 (by norm_num)) (by norm_num) (by norm_num)⟩

/-! ## Cutoff speed floor passed to the guiding-center pushes

`src/simulate/mccc/mccc.c` lines 379 (`mccc_step_gc_fixed`) and 533
(`mccc_step_gc_adaptive`) compute `cutoff = 0.1*sqrt(temp[0]/mass)`;
the legacy `src/mccc/mccc.c` lines 198 and 284 instead pass
`cutoff = 0` (annotated `TODO give me a real value!`). -/

/-- Cutoff passed to `mccc_push_gcEM`/`mccc_push_gcMI` by the current
implementation: `0.1*sqrt(temp[0]/p->mass[i])`. -/
noncomputable def mccc_sim_gc_cutoff (temp0 mass : ℝ) : ℝ :=
  0.1 * Real.sqrt (temp0 / mass)

/-- Cutoff passed to the pushes by the legacy implementation
(src/mccc/mccc.c lines 198 and 284). -/
def mccc_legacy_gc_cutoff : ℝ := 0

/-- Claim C7: the current implementation's cutoff is strictly positive for
physical backgrounds (positive electron temperature and particle mass), but
the legacy implementation invokes both guiding-center pushes with
`cutoff = 0`, which is not strictly positive — so the zero-speed guard can
never engage on that path. -/
theorem mccc_gc_cutoff_bug :
    (∀ temp0 mass : ℝ, 0 < temp0 → 0 < mass →
      0 < mccc_sim_gc_cutoff temp0 mass) ∧
    mccc_legacy_gc_cutoff = 0 ∧ ¬ (0 < mccc_legacy_gc_cutoff) := by
  refine ⟨fun temp0 mass ht hm => ?_, rfl, by norm_num [mccc_legacy_gc_cutoff]⟩
  unfold mccc_sim_gc_cutoff
  have := Real.sqrt_pos.mpr (div_pos ht hm)
  positivity

/-- Witness for claim C7, at `temp0 = 1`, `mass = 1`. -/
theorem mccc_gc_cutoff_bug_witness :
    0 < (1 : ℝ) ∧ 0 < mccc_sim_gc_cutoff 1 1 ∧ mccc_legacy_gc_cutoff = 0 :=
  ⟨by norm_num, mccc_gc_cutoff_bug.1 1 1 (by norm_num) (by norm_num),
   mccc_gc_cutoff_bug.2.1⟩

/-! ## Scalar speed used for coefficient evaluation in the gc picture

`mccc_update_gc` (src/simulate/mccc/mccc.c lines 212-215) and
`mccc_collfreq_gc` (lines 133-136) compute
`t = 2*mu*Bnorm*mass; va = sqrt(vpar^2 + t*t)`, whereas
`mccc_step_gc_fixed` (lines 355-359) and `mccc_step_gc_adaptive`
(lines 511-514) compute `tmp = 2*mu*Bnorm/mass; vin = sqrt(vpar^2 + tmp)`. -/

/-- Speed at which `mccc_update_gc` and `mccc_collfreq_gc` evaluate the
Coulomb logarithm and collision coefficients. -/
noncomputable def mccc_update_gc_speed (mass vpar mu Bnorm : ℝ) : ℝ :=
  Real.sqrt (vpar * vpar + (2 * mu * Bnorm * mass) * (2 * mu * Bnorm * mass))

/-- Speed at which `mccc_step_gc_fixed` and `mccc_step_gc_adaptive`
evaluate the Coulomb logarithm and collision coefficients. -/
noncomputable def mccc_step_gc_speed (mass vpar mu Bnorm : ℝ) : ℝ :=
  Real.sqrt (vpar * vpar + 2 * mu * Bnorm / mass)

/-- Claim C9: the two speeds disagree.  At `mass = 2`, `vpar = 0`,
`mu = 1`, `|B| = 1` the step functions evaluate the coefficients at speed
`sqrt(2*mu*|B|/mass) = 1` while `mccc_update_gc`/`mccc_collfreq_gc`
evaluate them at `sqrt((2*mu*|B|*mass)^2) = 4`. -/
theorem mccc_gc_speed_mismatch :
    mccc_step_gc_speed 2 0 1 1 = 1 ∧
    mccc_update_gc_speed 2 0 1 1 = 4 ∧
    mccc_update_gc_speed 2 0 1 1 ≠ mccc_step_gc_speed 2 0 1 1 := by
  have h1 : mccc_step_gc_speed 2 0 1 1 = 1 := by
    unfold mccc_step_gc_speed
    rw [show (0 : ℝ) * 0 + 2 * 1 * 1 / 2 = 1 by norm_num, Real.sqrt_one]
  have h2 : mccc_update_gc_speed 2 0 1 1 = 4 := by
    unfold mccc_update_gc_speed
    rw [show (0 : ℝ) * 0 + 2 * 1 * 1 * 2 * (2 * 1 * 1 * 2) = 4 ^ 2 by norm_num,
        Real.sqrt_sq (by norm_num : (0 : ℝ) ≤ 4)]
  exact ⟨h1, h2, by rw [h1, h2]; norm_num⟩

/-! ## HDF5 plasma readers: species list layout

Embeds the species-list construction of `hdf5_plasma_read_1D`
(src/hdf5io/hdf5_plasma.c lines 87-118) and `hdf5_plasma_read_1DS`
(lines 174-211).  The raw values delivered by the HDF5 reads are the
`PlasmaFileData` input; the physical constants from the missing
`consts.h` are explicit parameters; the profile-array filling (rho grid,
temperatures, densities) does not touch the species list and is not
modelled.  Fields of the offload struct never assigned by the reader keep
their prior (indeterminate) values, carried by the `init` argument. -/

/-- Values read from the HDF5 file: ion count, rho-grid size, and the
per-ion integer charge and mass numbers. -/
structure PlasmaFileData where
  n_ions : ℕ
  n_rho : ℕ
  chargeIn : ℕ → ℤ
  massIn : ℕ → ℤ

/-- The species-relevant part of the plasma offload data filled by the
readers. -/
structure Plasma1DOffload where
  n_species : ℕ
  n_rho : ℕ
  charge : ℕ → ℝ
  mass : ℕ → ℝ

/-- Modelled from the spec: `MAX_SPECIES`, the fixed maximum species count
sizing the per-species arrays ("species count ≤ a fixed maximum").  It is
defined in `ascot5.h`, which is not under src/; the ASCOT5 header sets it
to 8. -/
def MAX_SPECIES : ℕ := 8

/-- Species-list construction of `hdf5_plasma_read_1D`: electron charge
`-1*CONST_E` and mass `CONST_M_E` at index 0, ion species `i` at index
`i+1` with charge `charge[i]*CONST_E` and mass `mass[i]*CONST_U`, and
`n_species = n_ions + 1`. -/
def hdf5_plasma_read_1D (CONST_E CONST_M_E CONST_U : ℝ)
    (init : Plasma1DOffload) (d : PlasmaFileData) : Plasma1DOffload where
  n_species := d.n_ions + 1
  n_rho := d.n_rho
  charge := fun k =>
    if k = 0 then -1 * CONST_E
    else if k ≤ d.n_ions then (d.chargeIn (k-1) : ℝ) * CONST_E
    else init.charge k
  mass := fun k =>
    if k = 0 then CONST_M_E
    else if k ≤ d.n_ions then (d.massIn (k-1) : ℝ) * CONST_U
    else init.mass k

/-- Species-list construction of `hdf5_plasma_read_1DS` (lines 185-211):
identical to the 1D reader's. -/
def hdf5_plasma_read_1DS (CONST_E CONST_M_E CONST_U : ℝ)
    (init : Plasma1DOffload) (d : PlasmaFileData) : Plasma1DOffload where
  n_species := d.n_ions + 1
  n_rho := d.n_rho
  charge := fun k =>
    if k = 0 then -1 * CONST_E
    else if k ≤ d.n_ions then (d.chargeIn (k-1) : ℝ) * CONST_E
    else init.charge k
  mass := fun k =>
    if k = 0 then CONST_M_E
    else if k ≤ d.n_ions then (d.massIn (k-1) : ℝ) * CONST_U
    else init.mass k

/-- A file record with `n_ions = MAX_SPECIES`, as an unvalidated HDF5 file
may deliver. -/
def plasmaFileBig : PlasmaFileData :=
  ⟨MAX_SPECIES, 1, fun _ => 1, fun _ => 1⟩

/-- An all-zero prior offload record. -/
def plasmaOffloadZero : Plasma1DOffload :=
  ⟨0, 0, fun _ => 0, fun _ => 0⟩

/-- Claim C8, counterexample: the readers perform no check of `n_ions`
against `MAX_SPECIES`; on a file with `n_ions = MAX_SPECIES` the stored
species count is `MAX_SPECIES + 1 = 9 > 8 = MAX_SPECIES`. -/
theorem hdf5_plasma_species_bound_cex :
    (hdf5_plasma_read_1D 1 1 1 plasmaOffloadZero plasmaFileBig).n_species
      = MAX_SPECIES + 1 ∧
    ¬ ((hdf5_plasma_read_1D 1 1 1 plasmaOffloadZero plasmaFileBig).n_species
        ≤ MAX_SPECIES) :=
  ⟨rfl, by decide⟩

/-- Claim C8, amended: both readers place the electron at index 0 with
mass `CONST_M_E` and charge `-CONST_E`, followed by the `n_ions` ion
species, and store `n_species = n_ions + 1`; the bound
`n_species ≤ MAX_SPECIES` holds only under the assumption
`n_ions < MAX_SPECIES`, which the readers do not check. -/
theorem hdf5_plasma_species_layout (CONST_E CONST_M_E CONST_U : ℝ)
    (init : Plasma1DOffload) (d : PlasmaFileData)
    (hbound : d.n_ions < MAX_SPECIES) :
    ((hdf5_plasma_read_1D CONST_E CONST_M_E CONST_U init d).charge 0
        = -1 * CONST_E ∧
     (hdf5_plasma_read_1D CONST_E CONST_M_E CONST_U init d).mass 0
        = CONST_M_E ∧
     (∀ i < d.n_ions,
       (hdf5_plasma_read_1D CONST_E CONST_M_E CONST_U init d).charge (i+1)
          = (d.chargeIn i : ℝ) * CONST_E ∧
       (hdf5_plasma_read_1D CONST_E CONST_M_E CONST_U init d).mass (i+1)
          = (d.massIn i : ℝ) * CONST_U) ∧
     (hdf5_plasma_read_1D CONST_E CONST_M_E CONST_U init d).n_species
        = d.n_ions + 1 ∧
     (hdf5_plasma_read_1D CONST_E CONST_M_E CONST_U init d).n_species
        ≤ MAX_SPECIES) ∧
    ((hdf5_plasma_read_1DS CONST_E CONST_M_E CONST_U init d).charge 0
        = -1 * CONST_E ∧
     (hdf5_plasma_read_1DS CONST_E CONST_M_E CONST_U init d).mass 0
        = CONST_M_E ∧
     (∀ i < d.n_ions,
       (hdf5_plasma_read_1DS CONST_E CONST_M_E CONST_U init d).charge (i+1)
          = (d.chargeIn i : ℝ) * CONST_E ∧
       (hdf5_plasma_read_1DS CONST_E CONST_M_E CONST_U init d).mass (i+1)
          = (d.massIn i : ℝ) * CONST_U) ∧
     (hdf5_plasma_read_1DS CONST_E CONST_M_E CONST_U init d).n_species
        = d.n_ions + 1 ∧
     (hdf5_plasma_read_1DS CONST_E CONST_M_E CONST_U init d).n_species
        ≤ MAX_SPECIES) := by
  have hcharge : ∀ i < d.n_ions,
      (if i + 1 = 0 then -1 * CONST_E
       else if i + 1 ≤ d.n_ions then (d.chargeIn (i+1-1) : ℝ) * CONST_E
       else init.charge (i+1)) = (d.chargeIn i : ℝ) * CONST_E := by
    intro i hi
    rw [if_neg (Nat.succ_ne_zero i), if_pos (Nat.succ_le_of_lt hi)]
    simp
  have hmass : ∀ i < d.n_ions,
      (if i + 1 = 0 then CONST_M_E
       else if i + 1 ≤ d.n_ions then (d.massIn (i+1-1) : ℝ) * CONST_U
       else init.mass (i+1)) = (d.massIn i : ℝ) * CONST_U := by
    intro i hi
    rw [if_neg (Nat.succ_ne_zero i), if_pos (Nat.succ_le_of_lt hi)]
    simp
  refine ⟨⟨rfl, rfl, fun i hi => ⟨hcharge i hi, hmass i hi⟩, rfl, hbound⟩,
          ⟨rfl, rfl, fun i hi => ⟨hcharge i hi, hmass i hi⟩, rfl, hbound⟩⟩

/-- Witness for claim C8 (amended): a single-ion file (`n_ions = 1`,
charge number 2, mass number 3) with unit constants. -/
theorem hdf5_plasma_species_layout_witness :
    (1 : ℕ) < MAX_SPECIES ∧
    (hdf5_plasma_read_1D 1 1 1 plasmaOffloadZero ⟨1, 1, fun _ => 2, fun _ => 3⟩).charge 0
      = -1 * 1 ∧
    (hdf5_plasma_read_1D 1 1 1 plasmaOffloadZero ⟨1, 1, fun _ => 2, fun _ => 3⟩).n_species
      ≤ MAX_SPECIES :=
  have h := hdf5_plasma_species_layout 1 1 1 plasmaOffloadZero
    ⟨1, 1, fun _ => 2, fun _ => 3⟩ (by decide)
  ⟨by decide, h.1.1, h.1.2.2.2.2⟩

/-! ## Guiding-center lane state and the commit phase of the gc steps

Embeds the marker-update part of `mccc_step_gc_fixed`
(src/simulate/mccc/mccc.c lines 402-455) and `mccc_step_gc_adaptive`
(lines 581-630).  The magnetic-field evaluators `B_field_eval_B_dB`,
`B_field_eval_psi`, `B_field_eval_rho` and the axis accessors are the
external field collaborator, passed as the `FieldData` parameter; the
Milstein/Euler-Maruyama push outputs (`vout`, `xiout`, `Xout`) are inputs
to the commit.  The `A5_CCOL_*` compile-time switches are taken as off. -/

/-- One guiding-center lane of the SIMD particle struct: position, parallel
speed, magnetic moment, cumulative poloidal angle, species data, the cached
field components with their spatial derivatives, and the cached
flux-surface label. -/
structure GCLane where
  (r phi z vpar mu pol mass charge : ℝ)
  (B_r B_r_dr B_r_dphi B_r_dz : ℝ)
  (B_phi B_phi_dr B_phi_dphi B_phi_dz : ℝ)
  (B_z B_z_dr B_z_dphi B_z_dz : ℝ)
  (rho : ℝ)

/-- The external magnetic-field collaborator: `B_field_eval_B_dB` (field
and eight derivatives, indexed as in the C array `B_dB[12]`),
`B_field_eval_psi`, `B_field_eval_rho`, and the magnetic-axis accessors. -/
structure FieldData where
  BdB : ℝ → ℝ → ℝ → Fin 12 → ℝ
  psi : ℝ → ℝ → ℝ → ℝ
  rhoOf : ℝ → ℝ
  axis_r : ℝ
  axis_z : ℝ

/-- C `atan2(y, x)`, modelled as the argument of the complex number
`x + i y`. -/
noncomputable def atan2 (y x : ℝ) : ℝ := Complex.arg ⟨x, y⟩

/-- C `fmod(x, y)`: remainder with truncation toward zero. -/
noncomputable def cfmod (x y : ℝ) : ℝ :=
  if 0 ≤ x / y then x - y * (Int.floor (x / y) : ℝ)
  else x - y * (Int.ceil (x / y) : ℝ)

/-- `math_normc` from the math helpers (header not under src/): Euclidean
norm of three components. -/
noncomputable def math_normc (x y z : ℝ) : ℝ := Real.sqrt (x*x + y*y + z*z)

/-- Marker update of `mccc_step_gc_adaptive` (lines 581-630): the Milstein
push output is committed — mu and vpar from `vout`, `xiout` and the
pre-step field norm `Bnorm`, the position from `Xout`, cumulative `pol`
and `phi` angles, and the field/rho cache re-evaluated at the new
position. -/
noncomputable def mccc_gc_adaptive_commit (F : FieldData) (Bnorm : ℝ)
    (p : GCLane) (vout xiout X0 X1 X2 : ℝ) : GCLane :=
  let phi0 := p.phi
  let R0 := p.r
  let z0 := p.z
  let mu' := (1 - xiout * xiout) * p.mass * vout * vout / (2 * Bnorm)
  let vpar' := vout * xiout
  let r' := Real.sqrt (X0 * X0 + X1 * X1)
  let z' := X2
  let pol' := p.pol +
    atan2 ((R0 - F.axis_r) * (z' - F.axis_z) - (z0 - F.axis_z) * (r' - F.axis_r))
          ((R0 - F.axis_r) * (r' - F.axis_r) + (z0 - F.axis_z) * (z' - F.axis_z))
  let tphi0 := cfmod phi0 (2 * Real.pi)
  let tphi1 := if tphi0 < 0 then 2 * Real.pi + tphi0 else tphi0
  let tphi := cfmod (atan2 X1 X0 + 2 * Real.pi) (2 * Real.pi) - tphi1
  let phi' := phi0 + tphi
  let BdB := F.BdB r' phi' z'
  { r := r', phi := phi', z := z', vpar := vpar', mu := mu', pol := pol',
    mass := p.mass, charge := p.charge,
    B_r := BdB 0, B_r_dr := BdB 1, B_r_dphi := BdB 2, B_r_dz := BdB 3,
    B_phi := BdB 4, B_phi_dr := BdB 5, B_phi_dphi := BdB 6, B_phi_dz := BdB 7,
    B_z := BdB 8, B_z_dr := BdB 9, B_z_dphi := BdB 10, B_z_dz := BdB 11,
    rho := F.rhoOf (F.psi r' phi' z') }

/-- Marker update of `mccc_step_gc_fixed` (lines 402-455): same as the
adaptive commit except that mu is computed with the field norm
`math_normc(B_dB[0], B_dB[4], B_dB[8])` at the new position. -/
noncomputable def mccc_gc_fixed_commit (F : FieldData)
    (p : GCLane) (vout xiout X0 X1 X2 : ℝ) : GCLane :=
  let phi0 := p.phi
  let R0 := p.r
  let z0 := p.z
  let r' := Real.sqrt (X0 * X0 + X1 * X1)
  let z' := X2
  let pol' := p.pol +
    atan2 ((R0 - F.axis_r) * (z' - F.axis_z) - (z0 - F.axis_z) * (r' - F.axis_r))
          ((R0 - F.axis_r) * (r' - F.axis_r) + (z0 - F.axis_z) * (z' - F.axis_z))
  let tphi0 := cfmod phi0 (2 * Real.pi)
  let tphi1 := if tphi0 < 0 then 2 * Real.pi + tphi0 else tphi0
  let tphi := cfmod (atan2 X1 X0 + 2 * Real.pi) (2 * Real.pi) - tphi1
  let phi' := phi0 + tphi
  let BdB := F.BdB r' phi' z'
  let Bnorm' := math_normc (BdB 0) (BdB 4) (BdB 8)
  let mu' := (1 - xiout * xiout) * p.mass * vout * vout / (2 * Bnorm')
  let vpar' := vout * xiout
  { r := r', phi := phi', z := z', vpar := vpar', mu := mu', pol := pol',
    mass := p.mass, charge := p.charge,
    B_r := BdB 0, B_r_dr := BdB 1, B_r_dphi := BdB 2, B_r_dz := BdB 3,
    B_phi := BdB 4, B_phi_dr := BdB 5, B_phi_dphi := BdB 6, B_phi_dz := BdB 7,
    B_z := BdB 8, B_z_dr := BdB 9, B_z_dphi := BdB 10, B_z_dz := BdB 11,
    rho := F.rhoOf (F.psi r' phi' z') }

/-- Per-lane result of `mccc_step_gc_adaptive`: the lane state is the
committed push output, and the signed step-size proposal is computed from
the error ratios separately. -/
noncomputable def mccc_gc_adaptive_lane (F : FieldData)
    (Bnorm hin dW3 dW4 : ℝ) (p : GCLane)
    (vout xiout X0 X1 X2 kk kd0 kd1 : ℝ) : GCLane × ℝ :=
  (mccc_gc_adaptive_commit F Bnorm p vout xiout X0 X1 X2,
   mccc_hout kk kd0 kd1 hin dW3 dW4)

/-- Claim C2: the committed lane state of `mccc_step_gc_adaptive` does not
depend on the error ratios — it is the same whether the step is accepted
or rejected — it always equals the committed push output, and on rejection
only the sign of the returned step size changes (its value becomes the
negated proposal magnitude); no rollback occurs. -/
theorem mccc_adaptive_state_committed (F : FieldData)
    (Bnorm hin dW3 dW4 : ℝ) (p : GCLane)
    (vout xiout X0 X1 X2 kk kd0 kd1 kk' kd0' kd1' : ℝ) :
    (mccc_gc_adaptive_lane F Bnorm hin dW3 dW4 p vout xiout X0 X1 X2 kk kd0 kd1).1
      = (mccc_gc_adaptive_lane F Bnorm hin dW3 dW4 p vout xiout X0 X1 X2 kk' kd0' kd1').1 ∧
    (mccc_gc_adaptive_lane F Bnorm hin dW3 dW4 p vout xiout X0 X1 X2 kk kd0 kd1).1
      = mccc_gc_adaptive_commit F Bnorm p vout xiout X0 X1 X2 ∧
    (mccc_rejected kk kd0 kd1 →
      (mccc_gc_adaptive_lane F Bnorm hin dW3 dW4 p vout xiout X0 X1 X2 kk kd0 kd1).2
        = -(mccc_hmag kk kd0 kd1 hin dW3 dW4)) := by
  refine ⟨rfl, rfl, fun hr => ?_⟩
  have hr' : 1 < kk ∨ 1 < kd0 ∨ 1 < kd1 := hr
  show mccc_hout kk kd0 kd1 hin dW3 dW4 = _
  unfold mccc_hout
  rw [if_pos hr']

/-- A trivial field collaborator, for witnesses. -/
def fieldZero : FieldData := ⟨fun _ _ _ _ => 0, fun _ _ _ => 0, fun _ => 0, 0, 0⟩

/-- An all-zero guiding-center lane, for witnesses. -/
def gcLaneZero : GCLane :=
  ⟨0, 0, 0, 0, 0, 0, 0, 0, 0, 0, 0, 0, 0, 0, 0, 0, 0, 0, 0, 0, 0⟩

/-- Witness for claim C2, at error ratios `(2, 0, 0)` (a rejected step). -/
theorem mccc_adaptive_state_committed_witness :
    mccc_rejected 2 0 0 ∧
    (mccc_gc_adaptive_lane fieldZero 0 1 1 1 gcLaneZero 0 0 0 0 0 2 0 0).2
      = -(mccc_hmag 2 0 0 1 1 1) :=
  ⟨Or.inl (by norm_num),
   (mccc_adaptive_state_committed fieldZero 0 1 1 1 gcLaneZero
      0 0 0 0 0 2 0 0 1 1 1).2.2 (Or.inl (by norm_num))⟩

/-- The cached field components, their eight spatial derivatives, and the
cached flux-surface label of a lane all equal the field collaborator
evaluated at the lane's own position. -/
def gc_cache_fresh (F : FieldData) (q : GCLane) : Prop :=
  q.B_r = F.BdB q.r q.phi q.z 0 ∧
  q.B_r_dr = F.BdB q.r q.phi q.z 1 ∧
  q.B_r_dphi = F.BdB q.r q.phi q.z 2 ∧
  q.B_r_dz = F.BdB q.r q.phi q.z 3 ∧
  q.B_phi = F.BdB q.r q.phi q.z 4 ∧
  q.B_phi_dr = F.BdB q.r q.phi q.z 5 ∧
  q.B_phi_dphi = F.BdB q.r q.phi q.z 6 ∧
  q.B_phi_dz = F.BdB q.r q.phi q.z 7 ∧
  q.B_z = F.BdB q.r q.phi q.z 8 ∧
  q.B_z_dr = F.BdB q.r q.phi q.z 9 ∧
  q.B_z_dphi = F.BdB q.r q.phi q.z 10 ∧
  q.B_z_dz = F.BdB q.r q.phi q.z 11 ∧
  q.rho = F.rhoOf (F.psi q.r q.phi q.z)

/-- Claim C10: after the commit phase of `mccc_step_gc_fixed` or
`mccc_step_gc_adaptive`, the lane's cached field components, their eight
derivatives, and the cached rho all equal the field evaluated at the
lane's committed position: the cache is never stale. -/
theorem mccc_gc_field_cache_fresh (F : FieldData) (Bnorm : ℝ) (p : GCLane)
    (vout xiout X0 X1 X2 : ℝ) :
    gc_cache_fresh F (mccc_gc_adaptive_commit F Bnorm p vout xiout X0 X1 X2) ∧
    gc_cache_fresh F (mccc_gc_fixed_commit F p vout xiout X0 X1 X2) :=
  ⟨⟨rfl, rfl, rfl, rfl, rfl, rfl, rfl, rfl, rfl, rfl, rfl, rfl, rfl⟩,
   ⟨rfl, rfl, rfl, rfl, rfl, rfl, rfl, rfl, rfl, rfl, rfl, rfl, rfl⟩⟩

/-! ## Batch (NSIMD lane vector) structure of the collision operations

Every operation of src/simulate/mccc/mccc.c loops over the `NSIMD` lanes
and guards the whole body with `if(p->running[i])`.  The batch size `n`
(NSIMD, from the missing `ascot5.h`) and the per-species dimension `ms`
(MAX_SPECIES) are parameters; the per-lane bodies — which chain the
plasma evaluators, the coefficient evaluators from the missing
`mccc_coefs.c`, the Wiener manager and the pushes from the missing
`mccc_push.c` — are function parameters of the lane's own inputs, so the
theorems hold for every behaviour of those collaborators. -/

/-- One full-orbit lane of the SIMD particle struct. -/
structure FOLane where
  (r phi z rdot phidot zdot mass charge rho : ℝ)

/-- The six per-lane, per-species output arrays of `mccc_update_fo`. -/
structure FOCoefArrays (n ms : ℕ) where
  (clogab F Dpara Dperp K nu : Fin n → Fin ms → ℝ)

/-- The seven per-lane, per-species output arrays of `mccc_update_gc`. -/
structure GCCoefArrays (n ms : ℕ) where
  (clogab Dpara DX K nu dQ dDpara : Fin n → Fin ms → ℝ)

/-- `mccc_update_fo` (lines 55-90): for each running lane, fill that lane's
coefficient slots from the lane's state; leave other lanes' slots. -/
def mccc_update_fo_batch {n ms : ℕ}
    (clogOf FOf DparaOf DperpOf KOf nuOf : FOLane → Fin ms → ℝ)
    (p : Fin n → FOLane) (running : Fin n → Bool)
    (a : FOCoefArrays n ms) : FOCoefArrays n ms where
  clogab := fun i s => if running i then clogOf (p i) s else a.clogab i s
  F := fun i s => if running i then FOf (p i) s else a.F i s
  Dpara := fun i s => if running i then DparaOf (p i) s else a.Dpara i s
  Dperp := fun i s => if running i then DperpOf (p i) s else a.Dperp i s
  K := fun i s => if running i then KOf (p i) s else a.K i s
  nu := fun i s => if running i then nuOf (p i) s else a.nu i s

/-- `mccc_update_gc` (lines 179-224): same guarded pattern for the
guiding-center coefficient arrays. -/
def mccc_update_gc_batch {n ms : ℕ}
    (clogOf DparaOf DXOf KOf nuOf dQOf dDparaOf : GCLane → Fin ms → ℝ)
    (p : Fin n → GCLane) (running : Fin n → Bool)
    (a : GCCoefArrays n ms) : GCCoefArrays n ms where
  clogab := fun i s => if running i then clogOf (p i) s else a.clogab i s
  Dpara := fun i s => if running i then DparaOf (p i) s else a.Dpara i s
  DX := fun i s => if running i then DXOf (p i) s else a.DX i s
  K := fun i s => if running i then KOf (p i) s else a.K i s
  nu := fun i s => if running i then nuOf (p i) s else a.nu i s
  dQ := fun i s => if running i then dQOf (p i) s else a.dQ i s
  dDpara := fun i s => if running i then dDparaOf (p i) s else a.dDpara i s

/-- `mccc_step_fo_fixed` (lines 241-312): for each running lane, the body
(background/coefficient evaluation, `mccc_push_foEM`) yields the updated
lane and that lane's error code `err[i]`; inactive lanes and their error
slots are untouched. -/
def mccc_step_fo_fixed_batch {n : ℕ}
    (body : FOLane → ℝ → (Fin 3 → ℝ) → FOLane × ℤ)
    (p : Fin n → FOLane) (running : Fin n → Bool)
    (h : Fin n → ℝ) (rnd : Fin n → Fin 3 → ℝ) (err : Fin n → ℤ) :
    (Fin n → FOLane) × (Fin n → ℤ) :=
  (fun i => if running i then (body (p i) (h i) (rnd i)).1 else p i,
   fun i => if running i then (body (p i) (h i) (rnd i)).2 else err i)

/-- `mccc_step_gc_fixed` (lines 329-457): the guarded Euler-Maruyama step
(`mccc_push_gcEM` plus the commit phase) for the guiding-center lanes. -/
def mccc_step_gc_fixed_batch {n : ℕ}
    (body : GCLane → ℝ → (Fin 5 → ℝ) → GCLane × ℤ)
    (p : Fin n → GCLane) (running : Fin n → Bool)
    (h : Fin n → ℝ) (rnd : Fin n → Fin 5 → ℝ) (err : Fin n → ℤ) :
    (Fin n → GCLane) × (Fin n → ℤ) :=
  (fun i => if running i then (body (p i) (h i) (rnd i)).1 else p i,
   fun i => if running i then (body (p i) (h i) (rnd i)).2 else err i)

/-- `mccc_step_gc_adaptive` (lines 480-655): for each running lane, the
body (Wiener extension via `mccc_wiener_generate` on the lane's own record
`w[i]`, the Milstein push, commit, accept/reject) yields the updated lane,
the signed step proposal `hout[i]`, the extended Wiener record and
`err[i]`; inactive lanes keep their state, step-size slot, record and
error slot. -/
def mccc_step_gc_adaptive_batch {n : ℕ} {W : Type}
    (body : GCLane → ℝ → (Fin 5 → ℝ) → W → GCLane × ℝ × W × ℤ)
    (p : Fin n → GCLane) (running : Fin n → Bool)
    (hin : Fin n → ℝ) (hout0 : Fin n → ℝ) (rnd : Fin n → Fin 5 → ℝ)
    (w : Fin n → W) (err : Fin n → ℤ) :
    (Fin n → GCLane) × (Fin n → ℝ) × (Fin n → W) × (Fin n → ℤ) :=
  (fun i => if running i then (body (p i) (hin i) (rnd i) (w i)).1 else p i,
   fun i => if running i then (body (p i) (hin i) (rnd i) (w i)).2.1 else hout0 i,
   fun i => if running i then (body (p i) (hin i) (rnd i) (w i)).2.2.1 else w i,
   fun i => if running i then (body (p i) (hin i) (rnd i) (w i)).2.2.2 else err i)

/-- Claim C5: when `running[i] = false`, every collision operation
(`mccc_update_fo`, `mccc_update_gc`, `mccc_step_fo_fixed`,
`mccc_step_gc_fixed`, `mccc_step_gc_adaptive`) leaves lane `i`'s particle
fields, coefficient slots, step-size slot, Wiener record and error slot
unchanged — whatever the collaborators' bodies do. -/
theorem mccc_skips_inactive_lanes {n ms : ℕ} {W : Type}
    (clogOf FOf DparaOf DperpOf KOf nuOf : FOLane → Fin ms → ℝ)
    (gclogOf gDparaOf gDXOf gKOf gnuOf gdQOf gdDparaOf : GCLane → Fin ms → ℝ)
    (foBody : FOLane → ℝ → (Fin 3 → ℝ) → FOLane × ℤ)
    (gcfBody : GCLane → ℝ → (Fin 5 → ℝ) → GCLane × ℤ)
    (gcaBody : GCLane → ℝ → (Fin 5 → ℝ) → W → GCLane × ℝ × W × ℤ)
    (pf : Fin n → FOLane) (pg : Fin n → GCLane) (running : Fin n → Bool)
    (af : FOCoefArrays n ms) (ag : GCCoefArrays n ms)
    (h hin hout0 : Fin n → ℝ) (rnd3 : Fin n → Fin 3 → ℝ)
    (rnd5 : Fin n → Fin 5 → ℝ) (w : Fin n → W) (err : Fin n → ℤ)
    (i : Fin n) (hrun : running i = false) :
    ((mccc_update_fo_batch clogOf FOf DparaOf DperpOf KOf nuOf pf running af).clogab i
        = af.clogab i ∧
     (mccc_update_fo_batch clogOf FOf DparaOf DperpOf KOf nuOf pf running af).F i
        = af.F i ∧
     (mccc_update_fo_batch clogOf FOf DparaOf DperpOf KOf nuOf pf running af).Dpara i
        = af.Dpara i ∧
     (mccc_update_fo_batch clogOf FOf DparaOf DperpOf KOf nuOf pf running af).Dperp i
        = af.Dperp i ∧
     (mccc_update_fo_batch clogOf FOf DparaOf DperpOf KOf nuOf pf running af).K i
        = af.K i ∧
     (mccc_update_fo_batch clogOf FOf DparaOf DperpOf KOf nuOf pf running af).nu i
        = af.nu i) ∧
    ((mccc_update_gc_batch gclogOf gDparaOf gDXOf gKOf gnuOf gdQOf gdDparaOf pg running ag).clogab i
        = ag.clogab i ∧
     (mccc_update_gc_batch gclogOf gDparaOf gDXOf gKOf gnuOf gdQOf gdDparaOf pg running ag).Dpara i
        = ag.Dpara i ∧
     (mccc_update_gc_batch gclogOf gDparaOf gDXOf gKOf gnuOf gdQOf gdDparaOf pg running ag).DX i
        = ag.DX i ∧
     (mccc_update_gc_batch gclogOf gDparaOf gDXOf gKOf gnuOf gdQOf gdDparaOf pg running ag).K i
        = ag.K i ∧
     (mccc_update_gc_batch gclogOf gDparaOf gDXOf gKOf gnuOf gdQOf gdDparaOf pg running ag).nu i
        = ag.nu i ∧
     (mccc_update_gc_batch gclogOf gDparaOf gDXOf gKOf gnuOf gdQOf gdDparaOf pg running ag).dQ i
        = ag.dQ i ∧
     (mccc_update_gc_batch gclogOf gDparaOf gDXOf gKOf gnuOf gdQOf gdDparaOf pg running ag).dDpara i
        = ag.dDpara i) ∧
    ((mccc_step_fo_fixed_batch foBody pf running h rnd3 err).1 i = pf i ∧
     (mccc_step_fo_fixed_batch foBody pf running h rnd3 err).2 i = err i) ∧
    ((mccc_step_gc_fixed_batch gcfBody pg running h rnd5 err).1 i = pg i ∧
     (mccc_step_gc_fixed_batch gcfBody pg running h rnd5 err).2 i = err i) ∧
    ((mccc_step_gc_adaptive_batch gcaBody pg running hin hout0 rnd5 w err).1 i = pg i ∧
     (mccc_step_gc_adaptive_batch gcaBody pg running hin hout0 rnd5 w err).2.1 i = hout0 i ∧
     (mccc_step_gc_adaptive_batch gcaBody pg running hin hout0 rnd5 w err).2.2.1 i = w i ∧
     (mccc_step_gc_adaptive_batch gcaBody pg running hin hout0 rnd5 w err).2.2.2 i = err i) := by
  simp [mccc_update_fo_batch, mccc_update_gc_batch, mccc_step_fo_fixed_batch,
        mccc_step_gc_fixed_batch, mccc_step_gc_adaptive_batch, hrun,
        funext_iff]

/-- An all-zero full-orbit lane, for witnesses. -/
def foLaneZero : FOLane := ⟨0, 0, 0, 0, 0, 0, 0, 0, 0⟩

/-- All-zero full-orbit coefficient arrays, for witnesses. -/
def foArraysZero : FOCoefArrays 1 1 :=
  ⟨fun _ _ => 0, fun _ _ => 0, fun _ _ => 0, fun _ _ => 0, fun _ _ => 0,
   fun _ _ => 0⟩

/-- All-zero guiding-center coefficient arrays, for witnesses. -/
def gcArraysZero : GCCoefArrays 1 1 :=
  ⟨fun _ _ => 0, fun _ _ => 0, fun _ _ => 0, fun _ _ => 0, fun _ _ => 0,
   fun _ _ => 0, fun _ _ => 0⟩

/-- Witness for claim C5: a one-lane batch with `running = false`
everywhere and trivial collaborator bodies. -/
theorem mccc_skips_inactive_lanes_witness :
    (fun _ : Fin 1 => false) 0 = false ∧
    (mccc_update_fo_batch (fun _ _ => 0) (fun _ _ => 0) (fun _ _ => 0)
        (fun _ _ => 0) (fun _ _ => 0) (fun _ _ => 0) (fun _ => foLaneZero)
        (fun _ => false) foArraysZero).clogab 0 = foArraysZero.clogab 0 ∧
    (mccc_step_gc_adaptive_batch
        (fun _ _ _ _ => (gcLaneZero, 0, Unit.unit, 0))
        (fun _ : Fin 1 => gcLaneZero)
        (fun _ => false) (fun _ => 0) (fun _ => 0) (fun _ _ => 0)
        (fun _ => Unit.unit) (fun _ => 0)).2.2.2 0 = (fun _ : Fin 1 => (0 : ℤ)) 0 :=
  have hfull := mccc_skips_inactive_lanes
    (fun _ _ => (0:ℝ)) (fun _ _ => 0) (fun _ _ => 0) (fun _ _ => 0)
    (fun _ _ => 0) (fun _ _ => 0)
    (fun _ _ => (0:ℝ)) (fun _ _ => 0) (fun _ _ => 0) (fun _ _ => 0)
    (fun _ _ => 0) (fun _ _ => 0) (fun _ _ => 0)
    (fun _ _ _ => (foLaneZero, 0)) (fun _ _ _ => (gcLaneZero, 0))
    (fun _ _ _ _ => (gcLaneZero, 0, Unit.unit, 0))
    (fun _ => foLaneZero) (fun _ => gcLaneZero) (fun _ => false)
    foArraysZero gcArraysZero
    (fun _ => 0) (fun _ => 0) (fun _ => 0) (fun _ _ => 0) (fun _ _ => 0)
    (fun _ => Unit.unit) (fun _ => 0) 0 rfl
  ⟨rfl, hfull.1.1, hfull.2.2.2.2.2.2.2⟩

/-- Claim C6: per-lane isolation.  For `mccc_step_gc_adaptive` and
`mccc_step_fo_fixed`, lane `i`'s four outputs (state, signed step size,
Wiener record, error code) and two outputs (state, error code) depend only
on lane `i`'s own inputs: two batches agreeing at lane `i` — whatever
errors arise in the other lanes — produce identical results and error
codes at lane `i`, and an error is recorded nowhere but in that lane's
`err[]` entry. -/
theorem mccc_error_isolation {n : ℕ} {W : Type}
    (gcaBody : GCLane → ℝ → (Fin 5 → ℝ) → W → GCLane × ℝ × W × ℤ)
    (foBody : FOLane → ℝ → (Fin 3 → ℝ) → FOLane × ℤ)
    (p q : Fin n → GCLane) (running running' : Fin n → Bool)
    (hin hin' hout0 hout0' : Fin n → ℝ) (rnd5 rnd5' : Fin n → Fin 5 → ℝ)
    (w w' : Fin n → W) (err err' : Fin n → ℤ)
    (pf qf : Fin n → FOLane) (h h' : Fin n → ℝ) (rnd3 rnd3' : Fin n → Fin 3 → ℝ)
    (errf errf' : Fin n → ℤ) (i : Fin n)
    (hp : p i = q i) (hr : running i = running' i) (hh : hin i = hin' i)
    (hh0 : hout0 i = hout0' i) (hrd : rnd5 i = rnd5' i) (hw : w i = w' i)
    (he : err i = err' i) (hpf : pf i = qf i) (hhf : h i = h' i)
    (hrdf : rnd3 i = rnd3' i) (hef : errf i = errf' i) :
    ((mccc_step_gc_adaptive_batch gcaBody p running hin hout0 rnd5 w err).1 i
       = (mccc_step_gc_adaptive_batch gcaBody q running' hin' hout0' rnd5' w' err').1 i ∧
     (mccc_step_gc_adaptive_batch gcaBody p running hin hout0 rnd5 w err).2.1 i
       = (mccc_step_gc_adaptive_batch gcaBody q running' hin' hout0' rnd5' w' err').2.1 i ∧
     (mccc_step_gc_adaptive_batch gcaBody p running hin hout0 rnd5 w err).2.2.1 i
       = (mccc_step_gc_adaptive_batch gcaBody q running' hin' hout0' rnd5' w' err').2.2.1 i ∧
     (mccc_step_gc_adaptive_batch gcaBody p running hin hout0 rnd5 w err).2.2.2 i
       = (mccc_step_gc_adaptive_batch gcaBody q running' hin' hout0' rnd5' w' err').2.2.2 i) ∧
    ((mccc_step_fo_fixed_batch foBody pf running h rnd3 errf).1 i
       = (mccc_step_fo_fixed_batch foBody qf running' h' rnd3' errf').1 i ∧
     (mccc_step_fo_fixed_batch foBody pf running h rnd3 errf).2 i
       = (mccc_step_fo_fixed_batch foBody qf running' h' rnd3' errf').2 i) := by
  simp only [mccc_step_gc_adaptive_batch, mccc_step_fo_fixed_batch]
  rw [hp, hr, hh, hh0, hrd, hw, he, hpf, hhf, hrdf, hef]
  exact ⟨⟨rfl, rfl, rfl, rfl⟩, ⟨rfl, rfl⟩⟩

/-- Witness for claim C6: two identical one-lane batches with trivial
bodies. -/
theorem mccc_error_isolation_witness :
    (fun _ : Fin 1 => gcLaneZero) 0 = (fun _ : Fin 1 => gcLaneZero) 0 ∧
    (mccc_step_gc_adaptive_batch
        (fun _ _ _ _ => (gcLaneZero, 0, Unit.unit, 0))
        (fun _ : Fin 1 => gcLaneZero) (fun _ => true) (fun _ => 0)
        (fun _ => 0) (fun _ _ => 0) (fun _ => Unit.unit) (fun _ => 0)).2.2.2 0
      = (mccc_step_gc_adaptive_batch
        (fun _ _ _ _ => (gcLaneZero, 0, Unit.unit, 0))
        (fun _ : Fin 1 => gcLaneZero) (fun _ => true) (fun _ => 0)
        (fun _ => 0) (fun _ _ => 0) (fun _ => Unit.unit) (fun _ => 0)).2.2.2 0 :=
  have hfull := mccc_error_isolation
    (fun _ _ _ _ => (gcLaneZero, 0, Unit.unit, 0))
    (fun _ _ _ => (foLaneZero, 0))
    (fun _ : Fin 1 => gcLaneZero) (fun _ => gcLaneZero)
    (fun _ => true) (fun _ => true)
    (fun _ => 0) (fun _ => 0) (fun _ => 0) (fun _ => 0)
    (fun _ _ => 0) (fun _ _ => 0)
    (fun _ => Unit.unit) (fun _ => Unit.unit) (fun _ => 0) (fun _ => 0)
    (fun _ => foLaneZero) (fun _ => foLaneZero)
    (fun _ => 0) (fun _ => 0) (fun _ _ => 0) (fun _ _ => 0)
    (fun _ => 0) (fun _ => 0) 0
    rfl rfl rfl rfl rfl rfl rfl rfl rfl rfl rfl
  ⟨rfl, hfull.1.2.2.2⟩
